import Mathlib

/-!
NCF dashboard component (`static/src/js/ncf_dashboard.js`).

A shallow embedding of the `NcfDashboard` component: its reactive state record,
the load performed before the component starts, and its six navigation
commands, followed by the properties of the written specification.

Modelling choices.

* A JavaScript object is the ordered list of its own enumerable data
  properties, under any name. Reading a field is a lookup of an own property,
  so an absent field reads as `none`.
* The state object also has a prototype. It matters for one name only: an
  assignment to `__proto__` that finds no data property of that name reaches
  the accessor of `Object.prototype`, which stores no property.
* Numbers are integers (the counters of the dashboard are counts).
* The two services of the host framework are represented by what the component
  asks of them: the list of `orm.call` requests and the list of `doAction`
  requests it has issued. The reply of the remote call is a parameter.
* An `async` method returns the state its promise ends in (fulfilled, rejected,
  or pending for ever when the awaited call never settles).
-/

namespace NcfDashboard

/-! ## Values and records -/

/-- JavaScript values that a JSON reply or the component state can hold. -/
inductive JsVal where
  | undefined
  | null
  | bool (b : Bool)
  | num (n : Int)
  | str (s : String)
  | arr (items : List JsVal)
  | obj (props : List (String × JsVal))

/-- A plain object: its own properties in insertion order, under any name
(`JSON.parse` makes an own property of every key of the text, `__proto__`
included). -/
abbrev JsRecord := List (String × JsVal)

/-- Name of an ordinary field: any property name but `__proto__`. -/
abbrev PropKey := { s : String // s ≠ "__proto__" }

/-- Own-property lookup by name. -/
def lookup : JsRecord → String → Option JsVal
  | [], _ => none
  | (k0, v0) :: rest, k => if k0 = k then some v0 else lookup rest k

/-- Own-property lookup of an ordinary field, `record[k]`. -/
def getOwn (r : JsRecord) (k : PropKey) : Option JsVal := lookup r k.val

/-- Storing `v` as the own data property `k`: an existing property keeps its
place and takes the new value, a new property is added after the others (a new
name that is an array index is listed first by JavaScript and last here; the
properties below read fields by name and do not depend on the place of a new
one). -/
def setProp : JsRecord → String → JsVal → JsRecord
  | [], k, v => [(k, v)]
  | (k0, v0) :: rest, k, v =>
      if k0 = k then (k0, v) :: rest else (k0, v0) :: setProp rest k v

/-- Own property names, in order. -/
def ownKeys (r : JsRecord) : List String := r.map Prod.fst

/-- Property access on a value: `v[k]` when `v` is an object. -/
def JsVal.field : JsVal → PropKey → Option JsVal
  | .obj props, k => getOwn props k
  | _, _ => none

/-- The prototype of the state object: `Object.prototype` for the object
literal of `setup`, or what an assignment to `__proto__` has put in its place
(an object or an array of a reply, whose own prototype chain ends in
`Object.prototype`, or `null`). -/
inductive Prototype where
  | objectPrototype
  | record (props : JsRecord)
  | array (items : List JsVal)
  | null

/-- An object that is assigned to: its own data properties and its
prototype. -/
structure JsObject where
  own : JsRecord
  proto : Prototype

/-- The setter of the accessor `Object.prototype.__proto__`: an object, an
array or `null` becomes the prototype; any other value is ignored. No property
is stored. -/
def setPrototype (tgt : JsObject) : JsVal → JsObject
  | .obj props => { tgt with proto := .record props }
  | .arr items => { tgt with proto := .array items }
  | .null => { tgt with proto := .null }
  | _ => tgt

/-- The assignment `target[k] = v`. Every property that can be found on the
prototype chain under a name other than `__proto__` is a writable data
property, so the value is stored as an own property. Under the name
`__proto__` the value is stored only when the target, or the reply object that
is its prototype, has a data property of that name, or when the prototype is
`null`; otherwise the assignment reaches the setter of `Object.prototype`. -/
def assignProp (tgt : JsObject) (k : String) (v : JsVal) : JsObject :=
  if k = "__proto__" then
    match lookup tgt.own k with
    | some _ => { tgt with own := setProp tgt.own k v }
    | none =>
      match tgt.proto with
      | .objectPrototype => setPrototype tgt v
      | .array _ => setPrototype tgt v
      | .record props =>
        match lookup props k with
        | some _ => { tgt with own := setProp tgt.own k v }
        | none => setPrototype tgt v
      | .null => { tgt with own := setProp tgt.own k v }
  else { tgt with own := setProp tgt.own k v }

/-- One step of `Object.assign`: read `source[k]` and, when it is an own
property, assign it to the target. -/
def assignKey (source : JsRecord) (tgt : JsObject) (k : String) : JsObject :=
  match lookup source k with
  | some v => assignProp tgt k v
  | none => tgt

/-- The call `Object.assign(target, source)`: for each own key of the source,
in order, `target[key] = source[key]`. -/
def objectAssign (target : JsObject) (source : JsRecord) : JsObject :=
  (ownKeys source).foldl (assignKey source) target

/-! ## Services -/

/-- The state a promise ends in: fulfilled with a value, rejected with a
reason, or never settled. -/
inductive Settled (α : Type) where
  | pending
  | fulfilled (value : α)
  | rejected (reason : JsVal)

/-- The three arguments of `orm.call(model, method, args)`. -/
structure OrmCall where
  model : String
  method : String
  args : List JsVal

/-- The remote side: where the promise returned by `orm.call` ends. -/
abbrev OrmService := OrmCall → Settled JsRecord

/-! ## The component -/

/-- A component instance: the own properties and the prototype of the object
`this.state`, together with the requests the component has made on `this.orm`
and on `this.action`, oldest first. -/
structure Component where
  state : JsRecord
  statePrototype : Prototype
  ormCalls : List OrmCall
  actionCalls : List String

/-- The object `this.state`. -/
def Component.stateObject (self : Component) : JsObject :=
  { own := self.state, proto := self.statePrototype }

/-- The field name `alerts`. -/
abbrev alertsKey : PropKey := ⟨"alerts", by decide⟩

/-- The field name `sequences`. -/
abbrev sequencesKey : PropKey := ⟨"sequences", by decide⟩

/-- The field name `invoices_month`. -/
abbrev invoicesMonthKey : PropKey := ⟨"invoices_month", by decide⟩

/-- The field name `purchases_month`. -/
abbrev purchasesMonthKey : PropKey := ⟨"purchases_month", by decide⟩

/-- The field name `cancelled_month`. -/
abbrev cancelledMonthKey : PropKey := ⟨"cancelled_month", by decide⟩

/-- The field name `license`. -/
abbrev licenseKey : PropKey := ⟨"license", by decide⟩

/-- The field name `current_month`. -/
abbrev currentMonthKey : PropKey := ⟨"current_month", by decide⟩

/-- The seven field names given to `useState` in `setup`, in order. -/
def stateFields : List PropKey :=
  [alertsKey, sequencesKey, invoicesMonthKey, purchasesMonthKey, cancelledMonthKey,
   licenseKey, currentMonthKey]

/-- The method `setup()`: the component as constructed, before any load. The
state is an object literal, so its prototype is `Object.prototype`. -/
def setup : Component :=
  { state :=
      [("alerts", .arr []),
       ("sequences", .arr []),
       ("invoices_month", .num 0),
       ("purchases_month", .num 0),
       ("cancelled_month", .num 0),
       ("license", .obj []),
       ("current_month", .str "")]
    statePrototype := .objectPrototype
    ormCalls := []
    actionCalls := [] }

/-- The request made by `loadDashboardData`. -/
def dashboardCall : OrmCall :=
  { model := "l10n_do_ncf.dashboard", method := "get_dashboard_data", args := [] }

/-- The method `async loadDashboardData()`: await the remote call, then
`Object.assign(this.state, data)`. A rejected call rejects the method at the
`await`, before the assignment; a call that never settles leaves it there. -/
def loadDashboardData (orm : OrmService) (self : Component) : Component × Settled JsVal :=
  let asked : Component := { self with ormCalls := self.ormCalls ++ [dashboardCall] }
  match orm dashboardCall with
  | .pending => (asked, .pending)
  | .fulfilled data =>
    ({ asked with
        state := (objectAssign asked.stateObject data).own
        statePrototype := (objectAssign asked.stateObject data).proto },
     .fulfilled .undefined)
  | .rejected reason => (asked, .rejected reason)

/-- The callback given to `onWillStart` in `setup`:
`async () => { await this.loadDashboardData(); }`. -/
def onWillStart (orm : OrmService) (self : Component) : Component × Settled JsVal :=
  match loadDashboardData orm self with
  | (self1, .pending) => (self1, .pending)
  | (self1, .fulfilled _) => (self1, .fulfilled .undefined)
  | (self1, .rejected reason) => (self1, .rejected reason)

/-- The call `this.action.doAction(target)`. -/
def doAction (self : Component) (target : String) : Component :=
  { self with actionCalls := self.actionCalls ++ [target] }

/-- The method `openSequences()`. -/
def openSequences (self : Component) : Component × JsVal :=
  (doAction self "l10n_do_ncf.action_ncf_sequence", .undefined)

/-- The method `openInvoices()`. -/
def openInvoices (self : Component) : Component × JsVal :=
  (doAction self "account.action_move_out_invoice_type", .undefined)

/-- The method `openPurchases()`. -/
def openPurchases (self : Component) : Component × JsVal :=
  (doAction self "account.action_move_in_invoice_type", .undefined)

/-- The method `openReports()`. -/
def openReports (self : Component) : Component × JsVal :=
  (doAction self "l10n_do_ncf.action_dgii_report_wizard", .undefined)

/-- The method `openLicense()`. -/
def openLicense (self : Component) : Component × JsVal :=
  (doAction self "l10n_do_ncf.action_ncf_license_config_server", .undefined)

/-- The method `openTypes()`. -/
def openTypes (self : Component) : Component × JsVal :=
  (doAction self "l10n_do_ncf.action_ncf_type", .undefined)

/-- The six navigation commands, by method name. -/
inductive NavCommand where
  | openSequences
  | openInvoices
  | openPurchases
  | openReports
  | openLicense
  | openTypes
  deriving DecidableEq

/-- Invoke a navigation command on a component. -/
def NavCommand.run : NavCommand → Component → Component × JsVal
  | .openSequences => NcfDashboard.openSequences
  | .openInvoices => NcfDashboard.openInvoices
  | .openPurchases => NcfDashboard.openPurchases
  | .openReports => NcfDashboard.openReports
  | .openLicense => NcfDashboard.openLicense
  | .openTypes => NcfDashboard.openTypes

/-- What a command newly asked of the dispatcher: the `doAction` requests
after the call that were not there before it. -/
def dispatched (cmd : Component → Component × JsVal) (self : Component) : List String :=
  (cmd self).1.actionCalls.drop self.actionCalls.length

/-- A command that does nothing but send one `doAction` request: the request
is added at the end of the dispatcher's log, nothing is asked of the remote
side, `this.state` (its properties and its prototype) is as before and the
call returns `undefined`. -/
def DispatchesOnly (cmd : Component → Component × JsVal) (target : String) : Prop :=
  ∀ self : Component,
    (cmd self).1.actionCalls = self.actionCalls ++ [target] ∧
    (cmd self).1.ormCalls = self.ormCalls ∧
    (cmd self).1.state = self.state ∧
    (cmd self).2 = JsVal.undefined ∧
    (cmd self).1.statePrototype = self.statePrototype

/-! ## Records used as examples -/

/-- A remote side that answers every request with the given record. -/
def replying (reply : JsRecord) : OrmService := fun _ => .fulfilled reply

/-- A remote side whose every request fails with the given error. -/
def failing (reason : JsVal) : OrmService := fun _ => .rejected reason

/-- The reply of the specification's first testable property. -/
def sampleReply : JsRecord :=
  [("alerts", .arr []),
   ("sequences", .arr []),
   ("invoices_month", .num 5),
   ("purchases_month", .num 2),
   ("cancelled_month", .num 1),
   ("license", .obj [("status", .str "ok")]),
   ("current_month", .str "2024-05")]

/-- A reply that carries one field only: `{invoices_month: 5}`. -/
def partialReply : JsRecord :=
  [("invoices_month", .num 5)]

/-- An earlier reply: one alert, one sequence and a license record with a
`status` key, `{alerts: ["old"], sequences: ["B01"], license: {status: "ok"}}`. -/
def earlierReply : JsRecord :=
  [("alerts", .arr [.str "old"]),
   ("sequences", .arr [.str "B01"]),
   ("license", .obj [("status", .str "ok")])]

/-- A later reply: one alert, no sequence, and a license record without the
`status` key, `{alerts: ["low"], sequences: [], license: {expires: "2025-01-01"}}`. -/
def laterReply : JsRecord :=
  [("alerts", .arr [.str "low"]),
   ("sequences", .arr []),
   ("license", .obj [("expires", .str "2025-01-01")])]

/-- A reply outside the declared shape: a text counter and an undeclared key,
`{invoices_month: "many", extra: true}`. -/
def oddReply : JsRecord :=
  [("invoices_month", .str "many"),
   ("extra", .bool true)]

/-- The reply parsed from the JSON text `{"__proto__": 5}`: one own property,
named `__proto__`. -/
def protoReply : JsRecord :=
  [("__proto__", .num 5)]

/-! ## Lemmas on records -/

theorem lookup_setProp_same (r : JsRecord) (k : String) (v : JsVal) :
    lookup (setProp r k v) k = some v := by
  induction r with
  | nil => simp [setProp, lookup]
  | cons p rest ih =>
    obtain ⟨k0, v0⟩ := p
    by_cases h : k0 = k
    · simp [setProp, lookup, h]
    · simp [setProp, lookup, h, ih]

theorem lookup_setProp_other (r : JsRecord) (k k1 : String) (v : JsVal) (hne : k ≠ k1) :
    lookup (setProp r k v) k1 = lookup r k1 := by
  induction r with
  | nil => simp [setProp, lookup, hne]
  | cons p rest ih =>
    obtain ⟨k0, v0⟩ := p
    by_cases h : k0 = k
    · subst h
      simp [setProp, lookup, hne]
    · by_cases h1 : k0 = k1
      · subst h1
        simp [setProp, lookup, h]
      · simp [setProp, lookup, h, h1, ih]

theorem lookup_eq_none_of_not_mem (r : JsRecord) (k : String) (h : k ∉ ownKeys r) :
    lookup r k = none := by
  induction r with
  | nil => rfl
  | cons p rest ih =>
    obtain ⟨k0, v0⟩ := p
    simp only [ownKeys, List.map_cons, List.mem_cons, not_or] at h
    have hk : ¬ k0 = k := fun e => h.1 e.symm
    simp only [lookup, hk, if_false]
    exact ih h.2

theorem mem_ownKeys_of_lookup (r : JsRecord) (k : String) (v : JsVal)
    (h : lookup r k = some v) : k ∈ ownKeys r := by
  by_contra hk
  rw [lookup_eq_none_of_not_mem r k hk] at h
  cases h

theorem setPrototype_own (tgt : JsObject) (v : JsVal) : (setPrototype tgt v).own = tgt.own := by
  cases v <;> rfl

/-- An assignment under an ordinary name stores the value as an own property
and leaves the prototype alone. -/
theorem assignProp_ordinary (tgt : JsObject) (k : String) (v : JsVal) (hk : k ≠ "__proto__") :
    assignProp tgt k v = { tgt with own := setProp tgt.own k v } := by
  simp [assignProp, hk]

/-- An assignment under any name leaves the ordinary fields of other names as
they were. -/
theorem lookup_assignProp_other (tgt : JsObject) (k k1 : String) (v : JsVal) (hne : k ≠ k1) :
    lookup (assignProp tgt k v).own k1 = lookup tgt.own k1 := by
  unfold assignProp
  split
  · split
    · exact lookup_setProp_other tgt.own k k1 v hne
    · split
      · rw [setPrototype_own]
      · rw [setPrototype_own]
      · split
        · exact lookup_setProp_other tgt.own k k1 v hne
        · rw [setPrototype_own]
      · exact lookup_setProp_other tgt.own k k1 v hne
  · exact lookup_setProp_other tgt.own k k1 v hne

theorem lookup_assignKey_same (source : JsRecord) (tgt : JsObject) (k : String) (v : JsVal)
    (hk : k ≠ "__proto__") (h : lookup source k = some v) :
    lookup (assignKey source tgt k).own k = some v := by
  simp [assignKey, h, assignProp_ordinary tgt k v hk, lookup_setProp_same]

theorem lookup_assignKey_other (source : JsRecord) (tgt : JsObject) (k k1 : String)
    (hne : k ≠ k1) : lookup (assignKey source tgt k).own k1 = lookup tgt.own k1 := by
  unfold assignKey
  cases lookup source k with
  | none => rfl
  | some v => exact lookup_assignProp_other tgt k k1 v hne

theorem lookup_assignKey_absent (source : JsRecord) (tgt : JsObject) (k k1 : String)
    (h : lookup source k1 = none) : lookup (assignKey source tgt k).own k1 = lookup tgt.own k1 := by
  by_cases hk : k = k1
  · subst hk
    simp [assignKey, h]
  · exact lookup_assignKey_other source tgt k k1 hk

theorem lookup_foldl_absent (source : JsRecord) (k : String) (h : lookup source k = none)
    (ks : List String) (tgt : JsObject) :
    lookup (ks.foldl (assignKey source) tgt).own k = lookup tgt.own k := by
  induction ks generalizing tgt with
  | nil => rfl
  | cons k0 rest ih =>
    rw [List.foldl_cons, ih, lookup_assignKey_absent source tgt k0 k h]

theorem lookup_foldl_keep (source : JsRecord) (k : String) (v : JsVal)
    (hord : k ≠ "__proto__") (h : lookup source k = some v) (ks : List String)
    (tgt : JsObject) (htgt : lookup tgt.own k = some v) :
    lookup (ks.foldl (assignKey source) tgt).own k = some v := by
  induction ks generalizing tgt with
  | nil => exact htgt
  | cons k0 rest ih =>
    rw [List.foldl_cons]
    apply ih
    by_cases hk : k0 = k
    · subst hk
      exact lookup_assignKey_same source tgt k0 v hord h
    · rw [lookup_assignKey_other source tgt k0 k hk]
      exact htgt

theorem lookup_foldl_present (source : JsRecord) (k : String) (v : JsVal)
    (hord : k ≠ "__proto__") (h : lookup source k = some v) (ks : List String)
    (hk : k ∈ ks) (tgt : JsObject) :
    lookup (ks.foldl (assignKey source) tgt).own k = some v := by
  induction ks generalizing tgt with
  | nil => cases hk
  | cons k0 rest ih =>
    rw [List.foldl_cons]
    by_cases e : k0 = k
    · subst e
      exact lookup_foldl_keep source k0 v hord h rest _
        (lookup_assignKey_same source tgt k0 v hord h)
    · have hrest : k ∈ rest := by
        rcases List.mem_cons.mp hk with e1 | e1
        · exact absurd e1.symm e
        · exact e1
      exact ih hrest _

/-- An ordinary field of the source is, after `Object.assign`, the target's
field. -/
theorem lookup_objectAssign_present (target : JsObject) (source : JsRecord) (k : String)
    (v : JsVal) (hord : k ≠ "__proto__") (h : lookup source k = some v) :
    lookup (objectAssign target source).own k = some v :=
  lookup_foldl_present source k v hord h (ownKeys source)
    (mem_ownKeys_of_lookup source k v h) target

/-- A name the source lacks is left as it was by `Object.assign`. -/
theorem lookup_objectAssign_absent (target : JsObject) (source : JsRecord) (k : String)
    (h : lookup source k = none) :
    lookup (objectAssign target source).own k = lookup target.own k :=
  lookup_foldl_absent source k h (ownKeys source) target

theorem getOwn_objectAssign_present (target : JsObject) (source : JsRecord) (k : PropKey)
    (v : JsVal) (h : getOwn source k = some v) :
    getOwn (objectAssign target source).own k = some v :=
  lookup_objectAssign_present target source k.val v k.property h

theorem getOwn_objectAssign_absent (target : JsObject) (source : JsRecord) (k : PropKey)
    (h : getOwn source k = none) :
    getOwn (objectAssign target source).own k = getOwn target.own k :=
  lookup_objectAssign_absent target source k.val h

theorem loadDashboardData_fulfilled (orm : OrmService) (self : Component) (data : JsRecord)
    (h : orm dashboardCall = .fulfilled data) :
    loadDashboardData orm self =
      ({ state := (objectAssign self.stateObject data).own
         statePrototype := (objectAssign self.stateObject data).proto
         ormCalls := self.ormCalls ++ [dashboardCall]
         actionCalls := self.actionCalls }, .fulfilled .undefined) := by
  simp [loadDashboardData, h, Component.stateObject]

theorem loadDashboardData_rejected (orm : OrmService) (self : Component) (reason : JsVal)
    (h : orm dashboardCall = .rejected reason) :
    loadDashboardData orm self =
      ({ state := self.state
         statePrototype := self.statePrototype
         ormCalls := self.ormCalls ++ [dashboardCall]
         actionCalls := self.actionCalls }, .rejected reason) := by
  simp [loadDashboardData, h]

theorem ownKeys_setup : ownKeys setup.state = stateFields.map Subtype.val := rfl

theorem mem_stateFields_of_val_mem (k : PropKey)
    (h : k.val ∈ stateFields.map Subtype.val) : k ∈ stateFields := by
  obtain ⟨q, hq, hqk⟩ := List.mem_map.mp h
  have e : q = k := Subtype.ext hqk
  rw [← e]
  exact hq

theorem getOwn_setup_eq_none (k : PropKey) (h : k ∉ stateFields) :
    getOwn setup.state k = none :=
  lookup_eq_none_of_not_mem setup.state k.val
    (fun hmem => h (mem_stateFields_of_val_mem k (by rw [← ownKeys_setup]; exact hmem)))

theorem isSome_of_getOwn_objectAssign (target : JsObject) (source : JsRecord) (k : PropKey)
    (w : JsVal) (h : getOwn (objectAssign target source).own k = some w) :
    (getOwn target.own k).isSome = true ∨ (getOwn source k).isSome = true := by
  cases hs : getOwn source k with
  | some v => exact Or.inr rfl
  | none =>
    rw [getOwn_objectAssign_absent target source k hs] at h
    exact Or.inl (by rw [h]; rfl)

theorem isSome_getOwn_mem_ownKeys (r : JsRecord) (k : PropKey)
    (h : (getOwn r k).isSome = true) : k.val ∈ ownKeys r := by
  cases hk : getOwn r k with
  | none => rw [hk] at h; cases h
  | some v => exact mem_ownKeys_of_lookup r k.val v hk

theorem sampleReply_carries_fields (k : PropKey)
    (h : (getOwn setup.state k).isSome = true ∨ (getOwn earlierReply k).isSome = true) :
    (getOwn sampleReply k).isSome = true := by
  have hin : k ∈ stateFields := by
    apply mem_stateFields_of_val_mem
    rcases h with h | h
    · exact isSome_getOwn_mem_ownKeys setup.state k h
    · exact (by decide : ∀ q ∈ ownKeys earlierReply, q ∈ stateFields.map Subtype.val) k.val
        (isSome_getOwn_mem_ownKeys earlierReply k h)
  exact (by decide : ∀ q ∈ stateFields, (getOwn sampleReply q).isSome = true) k hin

/-! ## The properties of the specification -/

/-- C1: when the remote call resolves to a record that defines all seven state
fields, `loadDashboardData` on the component as built by `setup` leaves
`this.state` equal to that record field for field: every key reads the same in
the state and in the record, present or absent. -/
theorem C1_first_load_state_is_reply (orm : OrmService) (reply : JsRecord)
    (hreply : orm dashboardCall = .fulfilled reply)
    (hall : ∀ k ∈ stateFields, (getOwn reply k).isSome = true) :
    ∀ k : PropKey, getOwn (loadDashboardData orm setup).1.state k = getOwn reply k := by
  intro k
  rw [loadDashboardData_fulfilled orm setup reply hreply]
  cases hk : getOwn reply k with
  | some v => exact getOwn_objectAssign_present setup.stateObject reply k v hk
  | none =>
    have hout : k ∉ stateFields := by
      intro hin
      have hsome := hall k hin
      rw [hk] at hsome
      cases hsome
    show getOwn (objectAssign setup.stateObject reply).own k = none
    rw [getOwn_objectAssign_absent setup.stateObject reply k hk]
    exact getOwn_setup_eq_none k hout

/-- The record of the specification's example defines the seven fields, and
after the first load the state is that record, each field reading as in it. -/
theorem C1_first_load_state_is_reply_witness :
    (replying sampleReply) dashboardCall = .fulfilled sampleReply ∧
    (∀ k ∈ stateFields, (getOwn sampleReply k).isSome = true) ∧
    (loadDashboardData (replying sampleReply) setup).1.state = sampleReply ∧
    getOwn (loadDashboardData (replying sampleReply) setup).1.state invoicesMonthKey
      = some (.num 5) ∧
    getOwn (loadDashboardData (replying sampleReply) setup).1.state licenseKey
      = some (.obj [("status", .str "ok")]) ∧
    getOwn (loadDashboardData (replying sampleReply) setup).1.state currentMonthKey
      = some (.str "2024-05") :=
  ⟨rfl, by decide, rfl,
   C1_first_load_state_is_reply (replying sampleReply) sampleReply rfl (by decide) invoicesMonthKey,
   C1_first_load_state_is_reply (replying sampleReply) sampleReply rfl (by decide) licenseKey,
   C1_first_load_state_is_reply (replying sampleReply) sampleReply rfl (by decide) currentMonthKey⟩

/-- C2: when the remote call rejects, `loadDashboardData` rejects with the same
error, and so does the `onWillStart` callback; `this.state` is what it was
before the call, so a failed first load leaves the state built by `setup`; the
prototype of the state object is untouched as well. -/
theorem C2_rejected_load_keeps_state (orm : OrmService) (self : Component) (reason : JsVal)
    (hfail : orm dashboardCall = .rejected reason) :
    (loadDashboardData orm self).2 = .rejected reason ∧
    (loadDashboardData orm self).1.state = self.state ∧
    (onWillStart orm self).2 = .rejected reason ∧
    (onWillStart orm self).1.state = self.state ∧
    (loadDashboardData orm setup).1.state = setup.state ∧
    (loadDashboardData orm self).1.statePrototype = self.statePrototype ∧
    (onWillStart orm self).1.statePrototype = self.statePrototype := by
  refine ⟨?_, ?_, ?_, ?_, ?_, ?_, ?_⟩
  · rw [loadDashboardData_rejected orm self reason hfail]
  · rw [loadDashboardData_rejected orm self reason hfail]
  · simp only [onWillStart, loadDashboardData_rejected orm self reason hfail]
  · simp only [onWillStart, loadDashboardData_rejected orm self reason hfail]
  · rw [loadDashboardData_rejected orm setup reason hfail]
  · rw [loadDashboardData_rejected orm self reason hfail]
  · simp only [onWillStart, loadDashboardData_rejected orm self reason hfail]

/-- A remote side that fails with the text "timeout" on a component already
loaded with the example record: the load fails with that text and the state is
still the loaded one. -/
theorem C2_rejected_load_keeps_state_witness :
    (failing (.str "timeout")) dashboardCall = .rejected (.str "timeout") ∧
    (loadDashboardData (failing (.str "timeout"))
        (loadDashboardData (replying sampleReply) setup).1).2 = .rejected (.str "timeout") ∧
    (loadDashboardData (failing (.str "timeout"))
        (loadDashboardData (replying sampleReply) setup).1).1.state
      = (loadDashboardData (replying sampleReply) setup).1.state ∧
    (loadDashboardData (failing (.str "timeout")) setup).1.state = setup.state :=
  ⟨rfl,
   (C2_rejected_load_keeps_state (failing (.str "timeout"))
      (loadDashboardData (replying sampleReply) setup).1 (.str "timeout") rfl).1,
   (C2_rejected_load_keeps_state (failing (.str "timeout"))
      (loadDashboardData (replying sampleReply) setup).1 (.str "timeout") rfl).2.1,
   (C2_rejected_load_keeps_state (failing (.str "timeout"))
      (loadDashboardData (replying sampleReply) setup).1 (.str "timeout") rfl).2.2.2.2.1⟩

/-- C3: each of the six navigation commands, on any component, adds exactly one
`doAction` request with its own fixed identifier at the end of the dispatcher's
log, asks nothing of the remote side, returns `undefined` and leaves
`this.state` (its properties and its prototype) as it was. -/
theorem C3_navigation_dispatches_once :
    DispatchesOnly openSequences "l10n_do_ncf.action_ncf_sequence" ∧
    DispatchesOnly openInvoices "account.action_move_out_invoice_type" ∧
    DispatchesOnly openPurchases "account.action_move_in_invoice_type" ∧
    DispatchesOnly openReports "l10n_do_ncf.action_dgii_report_wizard" ∧
    DispatchesOnly openLicense "l10n_do_ncf.action_ncf_license_config_server" ∧
    DispatchesOnly openTypes "l10n_do_ncf.action_ncf_type" := by
  refine ⟨?_, ?_, ?_, ?_, ?_, ?_⟩ <;> intro self <;> exact ⟨rfl, rfl, rfl, rfl, rfl⟩

/-- C4: two loads in a row, the first resolving to `r1` and the second to `r2`,
from any starting component. Every field present in `r2` ends with the value
`r2` gives it, whatever `r1` and the starting state held. When `r2` carries all
the fields the state has by then (those of the starting state and those of
`r1`), the final state equals `r2` field for field, so nothing of `r1` is
left. -/
theorem C4_second_load_overwrites (orm1 orm2 : OrmService) (self : Component)
    (r1 r2 : JsRecord)
    (h1 : orm1 dashboardCall = .fulfilled r1)
    (h2 : orm2 dashboardCall = .fulfilled r2) :
    (∀ (k : PropKey) (v : JsVal), getOwn r2 k = some v →
      getOwn (loadDashboardData orm2 (loadDashboardData orm1 self).1).1.state k = some v) ∧
    ((∀ k : PropKey, (getOwn self.state k).isSome = true ∨ (getOwn r1 k).isSome = true →
        (getOwn r2 k).isSome = true) →
      ∀ k : PropKey,
        getOwn (loadDashboardData orm2 (loadDashboardData orm1 self).1).1.state k
          = getOwn r2 k) := by
  rw [loadDashboardData_fulfilled orm2 (loadDashboardData orm1 self).1 r2 h2,
    loadDashboardData_fulfilled orm1 self r1 h1]
  constructor
  · intro k v hk
    exact getOwn_objectAssign_present _ r2 k v hk
  · intro hcarry k
    cases hk : getOwn r2 k with
    | some v => exact getOwn_objectAssign_present _ r2 k v hk
    | none =>
      show getOwn (objectAssign _ r2).own k = none
      rw [getOwn_objectAssign_absent _ r2 k hk]
      show getOwn (objectAssign self.stateObject r1).own k = none
      cases hs : getOwn (objectAssign self.stateObject r1).own k with
      | none => rfl
      | some w =>
        have hsome := hcarry k (isSome_of_getOwn_objectAssign self.stateObject r1 k w hs)
        rw [hk] at hsome
        cases hsome

/-- A fresh component loaded with the earlier reply and then with the example
record: the alerts of the earlier reply are gone, and the final state reads as
the example record. -/
theorem C4_second_load_overwrites_witness :
    (replying earlierReply) dashboardCall = .fulfilled earlierReply ∧
    (replying sampleReply) dashboardCall = .fulfilled sampleReply ∧
    (∀ k : PropKey,
      (getOwn setup.state k).isSome = true ∨ (getOwn earlierReply k).isSome = true →
        (getOwn sampleReply k).isSome = true) ∧
    getOwn (loadDashboardData (replying earlierReply) setup).1.state alertsKey
      = some (.arr [.str "old"]) ∧
    getOwn (loadDashboardData (replying sampleReply)
        (loadDashboardData (replying earlierReply) setup).1).1.state alertsKey
      = some (.arr []) ∧
    getOwn (loadDashboardData (replying sampleReply)
        (loadDashboardData (replying earlierReply) setup).1).1.state sequencesKey
      = getOwn sampleReply sequencesKey :=
  ⟨rfl, rfl, sampleReply_carries_fields, rfl,
   (C4_second_load_overwrites (replying earlierReply) (replying sampleReply) setup
      earlierReply sampleReply rfl rfl).1 alertsKey (.arr []) rfl,
   (C4_second_load_overwrites (replying earlierReply) (replying sampleReply) setup
      earlierReply sampleReply rfl rfl).2 sampleReply_carries_fields sequencesKey⟩

/-- C5: after a successful load, every field whose key is absent from the
reply holds the value it held before the load. -/
theorem C5_absent_fields_keep_value (orm : OrmService) (self : Component) (reply : JsRecord)
    (hreply : orm dashboardCall = .fulfilled reply) :
    ∀ k : PropKey, getOwn reply k = none →
      getOwn (loadDashboardData orm self).1.state k = getOwn self.state k := by
  intro k hk
  rw [loadDashboardData_fulfilled orm self reply hreply]
  exact getOwn_objectAssign_absent self.stateObject reply k hk

/-- The reply `{invoices_month: 5}` on a fresh component: the six other fields
keep the values given by `setup`, and `invoices_month` is 5. -/
theorem C5_absent_fields_keep_value_witness :
    (replying partialReply) dashboardCall = .fulfilled partialReply ∧
    getOwn (loadDashboardData (replying partialReply) setup).1.state alertsKey
      = some (.arr []) ∧
    getOwn (loadDashboardData (replying partialReply) setup).1.state sequencesKey
      = some (.arr []) ∧
    getOwn (loadDashboardData (replying partialReply) setup).1.state purchasesMonthKey
      = some (.num 0) ∧
    getOwn (loadDashboardData (replying partialReply) setup).1.state cancelledMonthKey
      = some (.num 0) ∧
    getOwn (loadDashboardData (replying partialReply) setup).1.state licenseKey
      = some (.obj []) ∧
    getOwn (loadDashboardData (replying partialReply) setup).1.state currentMonthKey
      = some (.str "") ∧
    getOwn (loadDashboardData (replying partialReply) setup).1.state invoicesMonthKey
      = some (.num 5) :=
  ⟨rfl,
   C5_absent_fields_keep_value (replying partialReply) setup partialReply rfl alertsKey rfl,
   C5_absent_fields_keep_value (replying partialReply) setup partialReply rfl sequencesKey rfl,
   C5_absent_fields_keep_value (replying partialReply) setup partialReply rfl
     purchasesMonthKey rfl,
   C5_absent_fields_keep_value (replying partialReply) setup partialReply rfl
     cancelledMonthKey rfl,
   C5_absent_fields_keep_value (replying partialReply) setup partialReply rfl licenseKey rfl,
   C5_absent_fields_keep_value (replying partialReply) setup partialReply rfl
     currentMonthKey rfl,
   rfl⟩

/-- C6: every run of `loadDashboardData`, and of the `onWillStart` callback,
adds exactly one request to those made on the remote side, with model
"l10n_do_ncf.dashboard", method "get_dashboard_data" and no argument, whatever
the state and however the call settles; it sends nothing to the dispatcher. -/
theorem C6_load_issues_one_remote_call (orm : OrmService) (self : Component) :
    (loadDashboardData orm self).1.ormCalls
      = self.ormCalls ++
          [{ model := "l10n_do_ncf.dashboard", method := "get_dashboard_data", args := [] }] ∧
    (loadDashboardData orm self).1.actionCalls = self.actionCalls ∧
    (onWillStart orm self).1.ormCalls
      = self.ormCalls ++
          [{ model := "l10n_do_ncf.dashboard", method := "get_dashboard_data", args := [] }] ∧
    (onWillStart orm self).1.actionCalls = self.actionCalls := by
  unfold onWillStart loadDashboardData
  cases orm dashboardCall <;> exact ⟨rfl, rfl, rfl, rfl⟩

/-- C7: the state built by `setup` has exactly the seven fields of the
specification, with the empty values: `alerts` and `sequences` are empty
sequences, the three counters are 0, `license` is the empty record,
`current_month` is the empty text, and every other name is absent. It is a
plain object literal, and nothing has been asked of either service yet. -/
theorem C7_setup_state_is_empty :
    getOwn setup.state alertsKey = some (.arr []) ∧
    getOwn setup.state sequencesKey = some (.arr []) ∧
    getOwn setup.state invoicesMonthKey = some (.num 0) ∧
    getOwn setup.state purchasesMonthKey = some (.num 0) ∧
    getOwn setup.state cancelledMonthKey = some (.num 0) ∧
    getOwn setup.state licenseKey = some (.obj []) ∧
    getOwn setup.state currentMonthKey = some (.str "") ∧
    ownKeys setup.state =
      ["alerts", "sequences", "invoices_month", "purchases_month", "cancelled_month",
       "license", "current_month"] ∧
    (∀ k : String, k ∉ ownKeys setup.state → lookup setup.state k = none) ∧
    setup.ormCalls = [] ∧ setup.actionCalls = [] ∧
    setup.statePrototype = Prototype.objectPrototype :=
  ⟨rfl, rfl, rfl, rfl, rfl, rfl, rfl, rfl,
   fun k hk => lookup_eq_none_of_not_mem setup.state k hk, rfl, rfl, rfl⟩

/-- C8: the identifiers sent to the dispatcher by `openSequences`,
`openInvoices`, `openPurchases`, `openReports`, `openLicense` and `openTypes`
are pairwise distinct on every component, so two different commands never open
the same view. -/
theorem C8_navigation_targets_distinct (self : Component) :
    List.Pairwise (fun a b => a ≠ b)
      [dispatched openSequences self, dispatched openInvoices self,
       dispatched openPurchases self, dispatched openReports self,
       dispatched openLicense self, dispatched openTypes self] ∧
    Function.Injective (fun cmd : NavCommand => dispatched cmd.run self) := by
  have hdrop : ∀ t : String,
      List.drop self.actionCalls.length (self.actionCalls ++ [t]) = [t] :=
    fun t => List.drop_left self.actionCalls [t]
  constructor
  · simp only [dispatched, openSequences, openInvoices, openPurchases, openReports,
      openLicense, openTypes, doAction, hdrop]
    decide
  · intro a b hab
    cases a <;> cases b <;>
      simp only [dispatched, NavCommand.run, openSequences, openInvoices, openPurchases,
        openReports, openLicense, openTypes, doAction, hdrop] at hab <;>
      first
        | rfl
        | exact absurd hab (by decide)

/-- C9: the merge is shallow. After a successful load the state's `license` is
the reply's `license` value itself, so a key that the reply's license record
does not have is absent from the state's license record, whatever the previous
license record held; likewise `alerts` and `sequences` are the reply's
sequences, not the previous ones with the reply's added. -/
theorem C9_merge_is_shallow (orm : OrmService) (self : Component) (reply : JsRecord)
    (hreply : orm dashboardCall = .fulfilled reply) :
    (∀ lic : JsVal, getOwn reply licenseKey = some lic →
      getOwn (loadDashboardData orm self).1.state licenseKey = some lic) ∧
    (∀ (props : JsRecord) (q : PropKey), getOwn reply licenseKey = some (.obj props) →
      getOwn props q = none →
      (getOwn (loadDashboardData orm self).1.state licenseKey).bind (fun l => l.field q)
        = none) ∧
    (∀ items : JsVal, getOwn reply alertsKey = some items →
      getOwn (loadDashboardData orm self).1.state alertsKey = some items) ∧
    (∀ items : JsVal, getOwn reply sequencesKey = some items →
      getOwn (loadDashboardData orm self).1.state sequencesKey = some items) := by
  rw [loadDashboardData_fulfilled orm self reply hreply]
  refine ⟨?_, ?_, ?_, ?_⟩
  · intro lic h
    exact getOwn_objectAssign_present self.stateObject reply licenseKey lic h
  · intro props q h hq
    show (getOwn (objectAssign self.stateObject reply).own licenseKey).bind
      (fun l => l.field q) = none
    rw [getOwn_objectAssign_present self.stateObject reply licenseKey (.obj props) h]
    exact hq
  · intro items h
    exact getOwn_objectAssign_present self.stateObject reply alertsKey items h
  · intro items h
    exact getOwn_objectAssign_present self.stateObject reply sequencesKey items h

/-- A component loaded with the earlier reply, whose license has a `status`
key and which holds one alert and one sequence, then loaded with the later
reply: `status` is gone from the license, which is the later reply's record,
and the alerts and sequences are the later reply's. -/
theorem C9_merge_is_shallow_witness :
    (replying laterReply) dashboardCall = .fulfilled laterReply ∧
    ((getOwn (loadDashboardData (replying earlierReply) setup).1.state licenseKey).bind
        (fun l => l.field ⟨"status", by decide⟩) = some (.str "ok")) ∧
    getOwn (loadDashboardData (replying laterReply)
        (loadDashboardData (replying earlierReply) setup).1).1.state licenseKey
      = some (.obj [("expires", .str "2025-01-01")]) ∧
    ((getOwn (loadDashboardData (replying laterReply)
        (loadDashboardData (replying earlierReply) setup).1).1.state licenseKey).bind
        (fun l => l.field ⟨"status", by decide⟩) = none) ∧
    getOwn (loadDashboardData (replying laterReply)
        (loadDashboardData (replying earlierReply) setup).1).1.state alertsKey
      = some (.arr [.str "low"]) ∧
    getOwn (loadDashboardData (replying laterReply)
        (loadDashboardData (replying earlierReply) setup).1).1.state sequencesKey
      = some (.arr []) :=
  ⟨rfl, rfl,
   (C9_merge_is_shallow (replying laterReply)
      (loadDashboardData (replying earlierReply) setup).1 laterReply rfl).1 _ rfl,
   (C9_merge_is_shallow (replying laterReply)
      (loadDashboardData (replying earlierReply) setup).1 laterReply rfl).2.1
      [("expires", .str "2025-01-01")] ⟨"status", by decide⟩ rfl rfl,
   (C9_merge_is_shallow (replying laterReply)
      (loadDashboardData (replying earlierReply) setup).1 laterReply rfl).2.2.1 _ rfl,
   (C9_merge_is_shallow (replying laterReply)
      (loadDashboardData (replying earlierReply) setup).1 laterReply rfl).2.2.2 _ rfl⟩

/-- C10, as amended: the reply is not validated. Whatever record the remote
call resolves to, `loadDashboardData` and the `onWillStart` callback are
fulfilled, and the state then maps every key of the reply other than
`__proto__` to the reply's value, be the key one of the seven declared fields
or not and be the value of the declared kind or not. -/
theorem C10_reply_is_not_validated (orm : OrmService) (self : Component) (reply : JsRecord)
    (hreply : orm dashboardCall = .fulfilled reply) :
    (loadDashboardData orm self).2 = .fulfilled .undefined ∧
    (onWillStart orm self).2 = .fulfilled .undefined ∧
    (∀ (k : String) (v : JsVal), k ≠ "__proto__" → lookup reply k = some v →
      lookup (loadDashboardData orm self).1.state k = some v) := by
  refine ⟨?_, ?_, ?_⟩
  · rw [loadDashboardData_fulfilled orm self reply hreply]
  · simp only [onWillStart, loadDashboardData_fulfilled orm self reply hreply]
  · intro k v hord hk
    rw [loadDashboardData_fulfilled orm self reply hreply]
    exact lookup_objectAssign_present self.stateObject reply k v hord hk

/-- The reply `{invoices_month: "many", extra: true}` on a fresh component: the
load is fulfilled, `invoices_month` holds the text and the undeclared key
`extra`, absent before, is in the state. -/
theorem C10_reply_is_not_validated_witness :
    (replying oddReply) dashboardCall = .fulfilled oddReply ∧
    "invoices_month" ≠ "__proto__" ∧ "extra" ≠ "__proto__" ∧
    (loadDashboardData (replying oddReply) setup).2 = .fulfilled .undefined ∧
    lookup (loadDashboardData (replying oddReply) setup).1.state "invoices_month"
      = some (.str "many") ∧
    lookup setup.state "extra" = none ∧
    lookup (loadDashboardData (replying oddReply) setup).1.state "extra"
      = some (.bool true) :=
  ⟨rfl, by decide, by decide,
   (C10_reply_is_not_validated (replying oddReply) setup oddReply rfl).1,
   (C10_reply_is_not_validated (replying oddReply) setup oddReply rfl).2.2
     "invoices_month" (.str "many") (by decide) rfl,
   rfl,
   (C10_reply_is_not_validated (replying oddReply) setup oddReply rfl).2.2
     "extra" (.bool true) (by decide) rfl⟩

/-- C10 as written fails at the reply parsed from `{"__proto__": 5}` on a fresh
component. The reply has the key `__proto__` with value 5 and the load is
fulfilled, but the assignment reaches the setter of `Object.prototype`, which
ignores a number: the state has no property `__proto__`, its properties and
its prototype are those built by `setup`, so the state does not map every key
of the reply to the reply's value. -/
theorem C10_proto_key_is_not_stored :
    (replying protoReply) dashboardCall = .fulfilled protoReply ∧
    lookup protoReply "__proto__" = some (.num 5) ∧
    (loadDashboardData (replying protoReply) setup).2 = .fulfilled .undefined ∧
    lookup (loadDashboardData (replying protoReply) setup).1.state "__proto__" = none ∧
    (loadDashboardData (replying protoReply) setup).1.state = setup.state ∧
    (loadDashboardData (replying protoReply) setup).1.statePrototype
      = Prototype.objectPrototype ∧
    ¬ (∀ (k : String) (v : JsVal), lookup protoReply k = some v →
        lookup (loadDashboardData (replying protoReply) setup).1.state k = some v) := by
  refine ⟨rfl, rfl, rfl, rfl, rfl, rfl, ?_⟩
  intro hall
  have hnone :
      lookup (loadDashboardData (replying protoReply) setup).1.state "__proto__" = none := rfl
  have hsome := hall "__proto__" (.num 5) rfl
  rw [hnone] at hsome
  cases hsome

end NcfDashboard
